import Mathlib

/-!
Shallow embedding of the file-staging and PDF-merge core of
`personal_bot.py` (the `merge_pdfs`, `compress_file` and `convert_format`
handlers and the temp-storage discipline they share), together with
theorems settling the specification claims about that core.

Storage is modelled as the list of files currently present in the shared
temp directory; a file is a path plus an optional page list, where `none`
models content that the PDF/image libraries fail to open (a corrupt file).
Python exceptions are modelled by explicit control flow: every mutation
performed before the raise persists, and the surrounding
`except Exception` clause turns the raise into an error reply.
-/

/-- Source line 43: `TEMP_DIR = "temp"` — a single directory shared by all
conversations and all file-utility commands. -/
def TEMP_DIR : String := "temp"

/-- Models `os.path.join(TEMP_DIR, name)`. -/
def join_temp (name : String) : String := TEMP_DIR ++ "/" ++ name

/-- One artifact currently present in temp storage. `pages = none` models a
file the PDF/image libraries cannot read (corrupt input): `PdfMerger.append`,
`PdfReader` and `Image.open` raise on it. -/
structure TempFile where
  path : String
  pages : Option (List Nat)
deriving DecidableEq

/-- Models writing bytes to a path (`file.download_to_drive(path)` or
`open(path, "wb")`): an existing file at the same path is silently
overwritten. -/
def write_file (temp : List TempFile) (f : TempFile) : List TempFile :=
  temp.filter (fun g => g.path ≠ f.path) ++ [f]

/-- Models `os.remove(p)`: deletes the file at `p`; raises
`FileNotFoundError` (here `.error ()`) when no file exists at `p`. -/
def os_remove (temp : List TempFile) (p : String) : Except Unit (List TempFile) :=
  if temp.any (fun f => f.path = p) then
    .ok (temp.filter (fun f => f.path ≠ p))
  else
    .error ()

/-- Models a `for p in paths: os.remove(p)` cleanup loop: removals happen in
order; on the first raise the loop stops, earlier removals persist, and the
flag reports whether the loop completed without raising. -/
def os_remove_all (temp : List TempFile) : List String → List TempFile × Bool
  | [] => (temp, true)
  | p :: rest =>
    match os_remove temp p with
    | .ok t => os_remove_all t rest
    | .error _ => (temp, false)

/-- Models looking a path up in temp storage (opening a file for reading). -/
def find_file (temp : List TempFile) (p : String) : Option TempFile :=
  temp.find? (fun f => f.path = p)

/-- Message of PyPDF2 when an input is not a valid PDF (`PdfReadError`). -/
def pdf_read_error_msg : String := "EOF marker not found"

/-- Message of a `FileNotFoundError` raised by `open` or `os.remove`. -/
def file_not_found_msg : String := "No such file or directory"

/-- Message of PIL when `Image.open` cannot decode the bytes. -/
def image_open_error_msg : String := "cannot identify image file"

/-- Models the `for pdf_path in pdf_files: merger.append(pdf_path)` loop in
the `done` branch (source lines 667-668): each input is opened and read in
stored order; the loop raises at the first missing or corrupt input, and on
success the merged document holds all pages of all inputs in input order. -/
def merger_append_all (temp : List TempFile) : List String → Except String (List Nat)
  | [] => .ok []
  | p :: rest =>
    match find_file temp p with
    | none => .error file_not_found_msg
    | some f =>
      match f.pages with
      | none => .error pdf_read_error_msg
      | some pgs =>
        match merger_append_all temp rest with
        | .ok more => .ok (pgs ++ more)
        | .error e => .error e

/-- One message sent back to the operator: either a text reply or a document
delivery (`send_document`, modelled by its filename and page content). -/
inductive Reply where
  | text (s : String)
  | document (filename : String) (pages : List Nat)
deriving DecidableEq

/-- The inbound shapes the `merge_pdfs` handler distinguishes (source lines
652-705): no args and no document (help text), `done` argument, `cancel`
argument, a document with MIME type `application/pdf` (with its declared
file name and its content as downloaded), a document of any other MIME type
(falls through every branch), and an unrecognised argument without a
document (also falls through every branch). -/
inductive MergeEvent where
  | help
  | done
  | cancel
  | newDocument (fileName : String) (pages : Option (List Nat))
  | otherDocument
  | otherArg
deriving DecidableEq

/-- Result of one `merge_pdfs` invocation: the value of
`context.user_data["pdf_files"]` afterwards (`none` = key absent), the
contents of temp storage, and the replies sent. -/
structure MergeResult where
  pdf_files : Option (List String)
  temp : List TempFile
  replies : List Reply
deriving DecidableEq

/-- Source line 649: `hasattr(context.user_data, "pdf_files")`.
`context.user_data` is a Python dict, and dict keys are not object
attributes, so this test is `False` on every invocation regardless of
whether the `"pdf_files"` key is present. -/
def hasattr_pdf_files (_ud : Option (List String)) : Bool := false

/-- Help text of the handler (source lines 654-658). -/
def help_msg : String :=
  "📄 PDF Merger Mode:\n1. Send PDFs you want to merge\n2. Use /merge_pdf done when finished\n3. Use /merge_pdf cancel to cancel"

/-- Reply when `done` finds no pending files (source line 663). -/
def no_pdfs_msg : String := "⚠️ No PDFs to merge. Send some PDFs first!"

/-- Reply of the `cancel` branch (source line 695). -/
def cancelled_msg : String := "❌ PDF merge cancelled"

/-- Acknowledgment after staging a document (source lines 702-705). -/
def added_msg (n : Nat) : String :=
  "✅ PDF added (" ++ toString n ++ " total)\nSend more PDFs or use /merge_pdf done to finish"

/-- Reply of the blanket `except Exception` clause (source lines 707-708). -/
def merge_err_msg (e : String) : String := "⚠️ Error merging PDFs: " ++ e

/-- Staging path used for an inbound merge document (source line 699):
`TEMP_DIR/pdf_{len(pdf_files)}_{file_name}` — built from the current pending
count and the sender-supplied file name only; no conversation component. -/
def merge_stage_path (pendingLen : Nat) (fileName : String) : String :=
  join_temp ("pdf_" ++ toString pendingLen ++ "_" ++ fileName)

/-- The `merge_pdfs` handler (source lines 647-708), as a function of the
timestamp string `now`, the `user_data["pdf_files"]` entry of the conversation,
`ud`, the temp-storage contents, and the inbound event. The whole body runs
under `try`/`except Exception`, so a raise anywhere turns into an error
reply while keeping every mutation made before the raise. -/
def merge_pdfs (now : String) (ud : Option (List String)) (temp : List TempFile)
    (ev : MergeEvent) : MergeResult :=
  -- lines 649-650: the hasattr guard never fires on a dict, so the key is
  -- reset to the empty list on every invocation
  let pdfFiles : List String := if hasattr_pdf_files ud then ud.getD [] else []
  match ev with
  | .help => ⟨some pdfFiles, temp, [.text help_msg]⟩
  | .done =>
    if pdfFiles.isEmpty then
      ⟨some pdfFiles, temp, [.text no_pdfs_msg]⟩
    else
      match merger_append_all temp pdfFiles with
      | .error e => ⟨some pdfFiles, temp, [.text (merge_err_msg e)]⟩
      | .ok pages =>
        let outPath := join_temp ("merged_" ++ now ++ ".pdf")
        let temp1 := write_file temp ⟨outPath, some pages⟩
        let sendReply := Reply.document "merged.pdf" pages
        match os_remove_all temp1 pdfFiles with
        | (temp2, false) =>
          ⟨some pdfFiles, temp2, [sendReply, .text (merge_err_msg file_not_found_msg)]⟩
        | (temp2, true) =>
          match os_remove temp2 outPath with
          | .error _ =>
            ⟨some pdfFiles, temp2, [sendReply, .text (merge_err_msg file_not_found_msg)]⟩
          | .ok temp3 => ⟨some [], temp3, [sendReply]⟩
  | .cancel =>
    match os_remove_all temp pdfFiles with
    | (temp2, false) => ⟨some pdfFiles, temp2, [.text (merge_err_msg file_not_found_msg)]⟩
    | (temp2, true) => ⟨some [], temp2, [.text cancelled_msg]⟩
  | .newDocument fileName pages =>
    let path := merge_stage_path pdfFiles.length fileName
    let newList := pdfFiles ++ [path]
    ⟨some newList, write_file temp ⟨path, pages⟩, [.text (added_msg newList.length)]⟩
  | .otherDocument => ⟨some pdfFiles, temp, []⟩
  | .otherArg => ⟨some pdfFiles, temp, []⟩

/-! ### The `compress_file` handler (source lines 517-576) -/

/-- The inbound shapes `compress_file` distinguishes: no attachment, a
document (with its declared file name and downloaded content), or a photo
(content only; the handler names it `image_TIMESTAMP.jpg` itself). -/
inductive CompressEvent where
  | noAttachment
  | document (fileName : String) (content : Option (List Nat))
  | photo (content : Option (List Nat))
deriving DecidableEq

/-- Reply when no file is attached (source line 521). -/
def compress_warn_msg : String :=
  "⚠️ Please send a file (image or PDF) with the /compress command"

/-- Reply for a format the handler does not support (source line 560). -/
def unsupported_msg : String :=
  "⚠️ Unsupported file format. Please send an image or PDF."

/-- Reply of the blanket `except Exception` clause (source lines 575-576). -/
def compress_err_msg (e : String) : String := "⚠️ Error compressing file: " ++ e

/-- Models Python `s.lower()` on the characters of `s`. -/
def lower_chars (s : String) : List Char := s.data.map Char.toLower

/-- Models Python `s.lower().endswith(suffix)`. -/
def ends_with_lower (s : String) (suffix : String) : Bool :=
  suffix.data.isSuffixOf (lower_chars s)

/-- Source line 539: `file_path.lower().endswith((".jpg", ".jpeg", ".png"))`. -/
def is_image_name (name : String) : Bool :=
  ends_with_lower name ".jpg" || ends_with_lower name ".jpeg"
    || ends_with_lower name ".png"

/-- Source line 548: `file_path.lower().endswith(".pdf")`. -/
def is_pdf_name (name : String) : Bool := ends_with_lower name ".pdf"

/-- Tail of the `compress_file` success path: send the output document, then
`os.remove(file_path)` and `os.remove(output_path)` (source lines 563-573);
a raise in either removal is caught by the blanket `except`. -/
def compress_send_cleanup (temp : List TempFile) (fileName : String)
    (c : List Nat) (fp op : String) : List TempFile × List Reply :=
  let sendReply := Reply.document ("compressed_" ++ fileName) c
  match os_remove temp fp with
  | .error _ => (temp, [sendReply, .text (compress_err_msg file_not_found_msg)])
  | .ok t1 =>
    match os_remove t1 op with
    | .error _ => (t1, [sendReply, .text (compress_err_msg file_not_found_msg)])
    | .ok t2 => (t2, [sendReply])

/-- Body of `compress_file` after the download: the input is already staged
at `TEMP_DIR/fileName`; the handler then branches on the extension, opens
the input (raising on corrupt content, caught by the blanket `except` with
nothing released), writes the output as `compressed_{fileName}`, sends it
and removes both files. On an unsupported extension it replies and returns
with the downloaded input still staged. -/
def compress_go (temp : List TempFile) (fileName : String)
    (content : Option (List Nat)) : List TempFile × List Reply :=
  let fp := join_temp fileName
  let temp1 := write_file temp ⟨fp, content⟩
  if is_image_name fileName then
    match content with
    | none => (temp1, [.text (compress_err_msg image_open_error_msg)])
    | some c =>
      let op := join_temp ("compressed_" ++ fileName)
      let temp2 := write_file temp1 ⟨op, some c⟩
      compress_send_cleanup temp2 fileName c fp op
  else if is_pdf_name fileName then
    match content with
    | none => (temp1, [.text (compress_err_msg pdf_read_error_msg)])
    | some c =>
      let op := join_temp ("compressed_" ++ fileName)
      let temp2 := write_file temp1 ⟨op, some c⟩
      compress_send_cleanup temp2 fileName c fp op
  else
    (temp1, [.text unsupported_msg])

/-- The `compress_file` handler (source lines 517-576) as a function of the
timestamp string, temp storage and the inbound event, returning the new
temp storage and the replies sent. -/
def compress_file (now : String) (temp : List TempFile) (ev : CompressEvent) :
    List TempFile × List Reply :=
  match ev with
  | .noAttachment => (temp, [.text compress_warn_msg])
  | .document fileName content => compress_go temp fileName content
  | .photo content => compress_go temp ("image_" ++ now ++ ".jpg") content

/-! ### Staging paths of `convert_format` (source lines 595, 602) -/

/-- Input path of `convert_format`: `TEMP_DIR/input_TIMESTAMP.jpg`. -/
def convert_input_path (now : String) : String :=
  join_temp ("input_" ++ now ++ ".jpg")

/-- Output path of `convert_format`: `TEMP_DIR/converted.{fmt}` — a constant
per target format, with no conversation, timestamp or sequence component. -/
def convert_output_path (fmt : String) : String :=
  join_temp ("converted." ++ fmt)

/-! ### The multi-conversation system

`context.user_data` is keyed by the conversation (user) id by the transport
layer, so each conversation has its own `"pdf_files"` entry, while temp
storage (`TEMP_DIR`) is one shared directory. -/

abbrev ChatId := Nat

/-- Global state: the `user_data["pdf_files"]` entry of each conversation plus
the shared temp directory. -/
structure SysState where
  userData : ChatId → Option (List String)
  temp : List TempFile

/-- Fresh process state: no conversation has a `"pdf_files"` key and temp
storage is empty. -/
def init_sys : SysState := ⟨fun _ => none, []⟩

/-- One inbound event: the conversation it is scoped to, the timestamp at
which it is processed, and its shape. -/
structure SysEvent where
  chat : ChatId
  now : String
  ev : MergeEvent

/-- Dispatch one inbound event to `merge_pdfs` for its conversation: only
the `user_data` entry of that conversation is read and written; temp storage is
shared. -/
def sys_step (st : SysState) (e : SysEvent) : SysState × List Reply :=
  let r := merge_pdfs e.now (st.userData e.chat) st.temp e.ev
  (⟨fun c => if c = e.chat then r.pdf_files else st.userData c, r.temp⟩, r.replies)

/-- Process a list of inbound events in order. -/
def run_trace (st : SysState) : List SysEvent → SysState
  | [] => st
  | e :: rest => run_trace (sys_step st e).1 rest

/-- The pending list of a conversation (`[]` when the key is absent). -/
def pending_of (st : SysState) (c : ChatId) : List String :=
  (st.userData c).getD []

/-! ## Helper lemmas -/

/-- After any single invocation the `pdf_files` entry is either the empty
list or, for a staged document, the one-element list holding that document
at pending position 0 — a direct consequence of the guard on source lines
649-650 resetting the list on every call. -/
theorem merge_pdfs_pdf_files_cases (now : String) (ud : Option (List String))
    (temp : List TempFile) (ev : MergeEvent) :
    (merge_pdfs now ud temp ev).pdf_files = some [] ∨
    ∃ name pages, ev = MergeEvent.newDocument name pages ∧
      (merge_pdfs now ud temp ev).pdf_files = some [merge_stage_path 0 name] := by
  cases ev with
  | newDocument name pages => exact Or.inr ⟨name, pages, rfl, rfl⟩
  | help => exact Or.inl rfl
  | done => exact Or.inl rfl
  | cancel => exact Or.inl rfl
  | otherDocument => exact Or.inl rfl
  | otherArg => exact Or.inl rfl

/-- Dispatching an event leaves the `user_data` entry of every other
conversation untouched. -/
theorem sys_step_other (st : SysState) (e : SysEvent) (c : ChatId)
    (h : c ≠ e.chat) : ((sys_step st e).1).userData c = st.userData c := by
  simp [sys_step, h]

/-- Every entry of the pending list of a conversation after a run either was
already pending at the start or comes from a `newDocument` event of that
same conversation in the trace. -/
theorem run_trace_pending_from_own (trace : List SysEvent) (st : SysState)
    (c : ChatId) (p : String) (hp : p ∈ pending_of (run_trace st trace) c) :
    p ∈ pending_of st c ∨
    ∃ e ∈ trace, e.chat = c ∧ ∃ name pages,
      e.ev = MergeEvent.newDocument name pages ∧ p = merge_stage_path 0 name := by
  induction trace generalizing st with
  | nil => exact Or.inl hp
  | cons e rest ih =>
    rcases ih (sys_step st e).1 hp with h | ⟨e', he', hc, name, pages, hev, hpath⟩
    · by_cases hce : c = e.chat
      · subst hce
        have hpend : pending_of (sys_step st e).1 e.chat
            = ((merge_pdfs e.now (st.userData e.chat) st.temp e.ev).pdf_files).getD [] := by
          simp [pending_of, sys_step]
        rcases merge_pdfs_pdf_files_cases e.now (st.userData e.chat) st.temp e.ev with
          hcase | ⟨name, pages, hev, hcase⟩
        · rw [hpend, hcase] at h
          simp at h
        · rw [hpend, hcase] at h
          simp at h
          exact Or.inr ⟨e, List.mem_cons_self e rest, rfl, name, pages, hev, h⟩
      · rw [pending_of, sys_step_other st e c hce] at h
        exact Or.inl h
    · exact Or.inr ⟨e', List.mem_cons_of_mem e he', hc, name, pages, hev, hpath⟩

/-! ## Claims -/

/-- C1: the claim says N `new-document` events followed by `done` produce one
merged output in arrival order and leave temp storage empty. The code cannot
do this: the `hasattr` guard on a dict is always true, so the pending list
is reset to `[]` on every invocation; `done` therefore always takes the
"No PDFs to merge" branch, delivers no document, and leaves the staged
input in temp storage. Evaluation at the failing input (one document
`a.pdf`, then `done`): the first event stages the file and acknowledges it,
the second replies with the error text while `temp/pdf_0_a.pdf` is still
staged and no document reply is ever produced. -/
theorem c1_merge_is_never_performed :
    merge_pdfs "t1" none [] (MergeEvent.newDocument "a.pdf" (some [1]))
      = ⟨some [merge_stage_path 0 "a.pdf"],
         [⟨merge_stage_path 0 "a.pdf", some [1]⟩], [.text (added_msg 1)]⟩ ∧
    merge_pdfs "t2" (some [merge_stage_path 0 "a.pdf"])
        [⟨merge_stage_path 0 "a.pdf", some [1]⟩] MergeEvent.done
      = ⟨some [], [⟨merge_stage_path 0 "a.pdf", some [1]⟩], [.text no_pdfs_msg]⟩ :=
  ⟨rfl, rfl⟩

/-- C2 counterexample: with a corrupt input staged and pending, the claim
requires the `done` event to release it; in fact the file is still present
in temp storage after the event. -/
theorem c2_counterexample :
    (⟨merge_stage_path 0 "a.pdf", none⟩ : TempFile) ∈
      (merge_pdfs "t" (some [merge_stage_path 0 "a.pdf"])
        [⟨merge_stage_path 0 "a.pdf", none⟩] MergeEvent.done).temp := by
  decide

/-- C2 (amended): a `done` event never reaches the batch transform — the
guard resets the pending list first — so whatever is staged (corrupt or
not), `done` changes nothing in temp storage, sets the pending entry to the
empty list, delivers no output, raises nothing, and replies with the
"No PDFs to merge" text rather than a message naming an offending input. -/
theorem c2_done_never_releases (now : String) (ud : Option (List String))
    (temp : List TempFile) :
    merge_pdfs now ud temp MergeEvent.done
      = ⟨some [], temp, [.text no_pdfs_msg]⟩ := rfl

/-- C3 counterexample: compressing a corrupt image from an empty temp
directory replies with an error message but leaves the downloaded input
staged — the claim requires everything staged before the failure to be
released, i.e. an empty temp directory afterwards. -/
theorem c3_counterexample :
    (compress_file "t" [] (CompressEvent.document "a.jpg" none)).1
      = [⟨join_temp "a.jpg", none⟩] ∧
    (compress_file "t" [] (CompressEvent.document "a.jpg" none)).2
      = [.text (compress_err_msg image_open_error_msg)] ∧
    (compress_file "t" [] (CompressEvent.document "a.jpg" none)).1 ≠ [] :=
  ⟨rfl, rfl, by decide⟩

/-- C3 (amended): no exception escapes a handler and every failure yields a
user-visible error message, but artifacts staged before the failure are not
released on the failure path: for any image-named document whose content
the image library cannot open, `compress_file` replies with the error text
and temp storage still holds the downloaded input. -/
theorem c3_failure_message_but_no_release (now : String) (temp : List TempFile)
    (name : String) (h : is_image_name name = true) :
    compress_file now temp (CompressEvent.document name none)
      = (write_file temp ⟨join_temp name, none⟩,
         [.text (compress_err_msg image_open_error_msg)]) := by
  simp [compress_file, compress_go, h]

/-- C3 witness: the amended theorem applied at the corrupt image `a.jpg`. -/
theorem c3_witness :
    is_image_name "a.jpg" = true ∧
    compress_file "t" [] (CompressEvent.document "a.jpg" none)
      = (write_file [] ⟨join_temp "a.jpg", none⟩,
         [.text (compress_err_msg image_open_error_msg)]) :=
  ⟨rfl, c3_failure_message_but_no_release "t" [] "a.jpg" rfl⟩

/-- C4: a `done` event on a session whose pending list is empty replies with
the "No PDFs to merge" error, does not raise, removes nothing from temp
storage, and leaves the (empty) pending list of the session in place rather than
deleting the key. -/
theorem c4_done_on_empty_pending (now : String) (temp : List TempFile) :
    merge_pdfs now (some []) temp MergeEvent.done
      = ⟨some [], temp, [.text no_pdfs_msg]⟩ := rfl

/-- C5 counterexample: removal is `os.remove`, which is not idempotent — the
first release of `temp/a.pdf` succeeds, and a second release of the same
reference raises `FileNotFoundError` instead of being a no-op. -/
theorem c5_counterexample :
    os_remove [⟨"temp/a.pdf", some [1]⟩] "temp/a.pdf" = .ok [] ∧
    os_remove [] "temp/a.pdf" = .error () := ⟨rfl, rfl⟩

/-- C5 (amended): releasing an artifact reference a second time always
raises: whenever `os.remove` succeeds, running it again on the resulting
storage with the same path raises `FileNotFoundError` (which the handlers
catch in their blanket `except` clause), so release is not idempotent. -/
theorem c5_second_remove_raises (temp t2 : List TempFile) (p : String)
    (h : os_remove temp p = .ok t2) : os_remove t2 p = .error () := by
  unfold os_remove at h ⊢
  by_cases hc : temp.any (fun f => f.path = p) = true
  · rw [if_pos hc] at h
    injection h with h2
    have hno : t2.any (fun f => f.path = p) = false := by
      subst h2
      simp [List.any_eq_true, List.mem_filter]
    simp [hno]
  · rw [if_neg hc] at h
    simp at h

/-- C5 witness: the amended theorem applied to a one-file storage. -/
theorem c5_witness :
    os_remove [⟨"temp/a.pdf", some [1]⟩] "temp/a.pdf" = .ok [] ∧
    os_remove ([] : List TempFile) "temp/a.pdf" = .error () :=
  ⟨rfl, c5_second_remove_raises [⟨"temp/a.pdf", some [1]⟩] [] "temp/a.pdf" rfl⟩

/-- C6: the claim says `cancel` releases every staged input. The code cannot:
the guard resets the pending list to `[]` before the cleanup loop runs, so
the loop removes nothing. Evaluation at the failing input (one staged
document `a.pdf`, then `cancel`): the staged file is still in temp storage
after the cancellation reply, and a subsequent `new-document` does start a
fresh pending list holding only the new document. -/
theorem c6_cancel_releases_nothing :
    merge_pdfs "t2" (some [merge_stage_path 0 "a.pdf"])
        [⟨merge_stage_path 0 "a.pdf", some [1]⟩] MergeEvent.cancel
      = ⟨some [], [⟨merge_stage_path 0 "a.pdf", some [1]⟩],
         [.text cancelled_msg]⟩ ∧
    (merge_pdfs "t3" (some []) [⟨merge_stage_path 0 "a.pdf", some [1]⟩]
        (MergeEvent.newDocument "b.pdf" (some [2]))).pdf_files
      = some [merge_stage_path 0 "b.pdf"] :=
  ⟨rfl, rfl⟩

/-- C7 counterexample: a `cancel` with no active session is not a state
no-op reported as "nothing in progress": it creates the (empty) pending
entry, and its reply is the very same cancellation confirmation sent when a
session with staged documents is cancelled, so the no-session case is not
distinguished to the operator at all. -/
theorem c7_counterexample :
    (merge_pdfs "t" none [] MergeEvent.cancel).pdf_files ≠ none ∧
    (merge_pdfs "t" none [] MergeEvent.cancel).replies
      = (merge_pdfs "t" (some [merge_stage_path 0 "a.pdf"])
          [⟨merge_stage_path 0 "a.pdf", some [1]⟩] MergeEvent.cancel).replies :=
  ⟨by decide, rfl⟩

/-- C7 (amended): `done` and `cancel` with no active session do not raise
and remove nothing from temp storage, but they create the empty pending
entry rather than leaving the session store untouched, and they reply with
the "No PDFs to merge" error text and the standard "PDF merge cancelled"
confirmation respectively — there is no dedicated "nothing in progress"
report. -/
theorem c7_idle_signal_replies (now : String) (temp : List TempFile) :
    merge_pdfs now none temp MergeEvent.done
      = ⟨some [], temp, [.text no_pdfs_msg]⟩ ∧
    merge_pdfs now none temp MergeEvent.cancel
      = ⟨some [], temp, [.text cancelled_msg]⟩ :=
  ⟨rfl, rfl⟩

/-- C8 counterexample: staging is not collision-free across conversations —
conversation 1 stages `a.pdf`, then conversation 2 stages its own `a.pdf`;
both map to the single shared path `temp/pdf_0_a.pdf`, so afterwards temp
storage holds one file whose content is the document of conversation 2 while
the pending list of conversation 1 still references that same path. -/
theorem c8_counterexample :
    (run_trace init_sys
      [⟨1, "t1", MergeEvent.newDocument "a.pdf" (some [1])⟩,
       ⟨2, "t2", MergeEvent.newDocument "a.pdf" (some [2])⟩]).temp
      = [⟨merge_stage_path 0 "a.pdf", some [2]⟩] ∧
    pending_of (run_trace init_sys
      [⟨1, "t1", MergeEvent.newDocument "a.pdf" (some [1])⟩,
       ⟨2, "t2", MergeEvent.newDocument "a.pdf" (some [2])⟩]) 1
      = [merge_stage_path 0 "a.pdf"] :=
  ⟨rfl, rfl⟩

/-- C8 (amended): all commands stage into the single shared `TEMP_DIR` with
no per-conversation sub-scope, and staging names are built only from the
pending count and the sender-supplied file name, so any two conversations
submitting documents with the same name produce the same path: the second
stage overwrites the live artifact of the first conversation, whose pending
entry then references the content of the other conversation. -/
theorem c8_stage_paths_shared_across_conversations (n1 n2 : String)
    (pg1 pg2 : List Nat) (h : n1 = n2) :
    merge_stage_path 0 n1 = merge_stage_path 0 n2 ∧
    find_file (run_trace init_sys
        [⟨1, "t1", MergeEvent.newDocument n1 (some pg1)⟩,
         ⟨2, "t2", MergeEvent.newDocument n2 (some pg2)⟩]).temp
      (merge_stage_path 0 n1) = some ⟨merge_stage_path 0 n1, some pg2⟩ ∧
    pending_of (run_trace init_sys
        [⟨1, "t1", MergeEvent.newDocument n1 (some pg1)⟩,
         ⟨2, "t2", MergeEvent.newDocument n2 (some pg2)⟩]) 1
      = [merge_stage_path 0 n1] := by
  subst h
  refine ⟨rfl, ?_, ?_⟩
  · simp [run_trace, sys_step, merge_pdfs, init_sys, write_file, find_file]
  · simp [run_trace, sys_step, merge_pdfs, init_sys, write_file, pending_of]

/-- C8 witness: the amended theorem applied at file name `a.pdf` for both
conversations. -/
theorem c8_witness :
    merge_stage_path 0 "a.pdf" = merge_stage_path 0 "a.pdf" ∧
    find_file (run_trace init_sys
        [⟨1, "t1", MergeEvent.newDocument "a.pdf" (some [1])⟩,
         ⟨2, "t2", MergeEvent.newDocument "a.pdf" (some [2])⟩]).temp
      (merge_stage_path 0 "a.pdf")
      = some ⟨merge_stage_path 0 "a.pdf", some [2]⟩ ∧
    pending_of (run_trace init_sys
        [⟨1, "t1", MergeEvent.newDocument "a.pdf" (some [1])⟩,
         ⟨2, "t2", MergeEvent.newDocument "a.pdf" (some [2])⟩]) 1
      = [merge_stage_path 0 "a.pdf"] :=
  c8_stage_paths_shared_across_conversations "a.pdf" "a.pdf" [1] [2] rfl

/-- C9: for any interleaving of events from any conversations, every entry
of the final pending list of a conversation was staged by a `new-document` event
of that same conversation — pending lists never cross-contaminate, because
`user_data` is keyed by conversation and each dispatch touches only the
entry of the originating conversation. -/
theorem c9_no_cross_contamination (trace : List SysEvent) (c : ChatId)
    (p : String) (hp : p ∈ pending_of (run_trace init_sys trace) c) :
    ∃ e ∈ trace, e.chat = c ∧ ∃ name pages,
      e.ev = MergeEvent.newDocument name pages ∧ p = merge_stage_path 0 name := by
  rcases run_trace_pending_from_own trace init_sys c p hp with h | h
  · simp [pending_of, init_sys] at h
  · exact h

/-- C9 witness: the theorem applied to a one-event trace of conversation 1. -/
theorem c9_witness :
    ∃ e ∈ [(⟨1, "t", MergeEvent.newDocument "a.pdf" (some [1])⟩ : SysEvent)],
      e.chat = 1 ∧ ∃ name pages,
        e.ev = MergeEvent.newDocument name pages ∧
        merge_stage_path 0 "a.pdf" = merge_stage_path 0 name :=
  c9_no_cross_contamination
    [⟨1, "t", MergeEvent.newDocument "a.pdf" (some [1])⟩] 1
    (merge_stage_path 0 "a.pdf") (by decide)

/-- C10: the `hasattr` guard is true on every invocation — `user_data` is a
dict, whose keys are not attributes — so the handler behaves as if the
pending entry were always the empty list: the result of any event is
independent of the previous entry, and after any `new-document` event the
pending list is exactly the one-element list of that document and the
acknowledged running count is 1. -/
theorem c10_guard_always_resets (now : String) (ud : Option (List String))
    (temp : List TempFile) (ev : MergeEvent) (name : String)
    (pages : Option (List Nat)) :
    hasattr_pdf_files ud = false ∧
    merge_pdfs now ud temp ev = merge_pdfs now (some []) temp ev ∧
    (merge_pdfs now ud temp (MergeEvent.newDocument name pages)).pdf_files
      = some [merge_stage_path 0 name] ∧
    (merge_pdfs now ud temp (MergeEvent.newDocument name pages)).replies
      = [.text (added_msg 1)] :=
  ⟨rfl, rfl, rfl, rfl⟩
